import Mathlib

/-!
# Verification of the smart-home sensor simulation engine

Shallow embedding of the Python backend (`src/backend/app`) of the
smart-home IoT repository: the temperature / humidity / energy domain
workers, the coordinating `SensorSimulator`, and the `WebSocketManager`
subscription registry, together with proofs about the behaviours the
specification describes.

Modelling conventions:
* Python floats are modelled as exact rationals (`ℚ`).
* Wall-clock-dependent quantities (`datetime.now()`, the transcendental
  seasonal / daily pattern terms computed with `math.sin` / `math.exp`)
  and random draws (`random.gauss`, `random.random`, `random.uniform`)
  are explicit inputs of each tick function, bundled in `…Env` records.
* Python's `round(x, d)` (round-half-to-even) is modelled by `pyRound`.
* Python dicts are modelled by insertion-ordered association lists with
  `dictGet` / `dictSet` mirroring `d[k]` / `d[k] = v`; `list.append`,
  `x in l` and `list.remove` are modelled by `· ++ [x]`, `x ∈ l` and
  `List.erase` (first occurrence), matching CPython semantics.
* WebSocket sends are modelled as an output list of
  (recipient connection id, message) pairs; the non-failing delivery
  path is modelled (`send_text` succeeds for connected peers).
-/

namespace SmartHome

/-! ## Python `round` (banker's rounding) on rationals -/

/-- Round a rational to the nearest integer, ties to the even integer:
the behaviour of Python's builtin `round` on exact values. -/
def roundHalfEven (x : ℚ) : ℤ :=
  if x - ⌊x⌋ < 1/2 then ⌊x⌋
  else if 1/2 < x - ⌊x⌋ then ⌊x⌋ + 1
  else if ⌊x⌋ % 2 = 0 then ⌊x⌋ else ⌊x⌋ + 1

/-- Python's `round(x, d)`: round to `d` decimal digits, ties to even. -/
def pyRound (x : ℚ) (d : ℕ) : ℚ :=
  (roundHalfEven (x * 10 ^ d) : ℚ) / 10 ^ d

theorem le_roundHalfEven {x : ℚ} {n : ℤ} (h : (n : ℚ) ≤ x) :
    n ≤ roundHalfEven x := by
  have hfl : n ≤ ⌊x⌋ := Int.le_floor.mpr h
  unfold roundHalfEven
  split_ifs <;> omega

theorem roundHalfEven_le {x : ℚ} {n : ℤ} (h : x ≤ (n : ℚ)) :
    roundHalfEven x ≤ n := by
  have hfl : ⌊x⌋ ≤ n := by
    have h' := Int.floor_le_floor h
    simpa using h'
  have hlt : 0 < x - (⌊x⌋ : ℚ) → ⌊x⌋ + 1 ≤ n := by
    intro hr
    have h1 : (⌊x⌋ : ℚ) < (n : ℚ) := lt_of_lt_of_le (by linarith) h
    have h2 : ⌊x⌋ < n := by exact_mod_cast h1
    omega
  unfold roundHalfEven
  split_ifs with h1 h2 h3
  · exact hfl
  · exact hlt (by linarith)
  · exact hfl
  · exact hlt (by linarith)

theorem le_pyRound {x : ℚ} {n : ℤ} (d : ℕ) (h : (n : ℚ) ≤ x) :
    (n : ℚ) ≤ pyRound x d := by
  unfold pyRound
  rw [le_div_iff₀ (by positivity)]
  have hbase : ((n * 10 ^ d : ℤ) : ℚ) ≤ x * 10 ^ d := by
    push_cast
    have : (0 : ℚ) < 10 ^ d := by positivity
    nlinarith
  have := le_roundHalfEven hbase
  exact_mod_cast this

theorem pyRound_le {x : ℚ} {n : ℤ} (d : ℕ) (h : x ≤ (n : ℚ)) :
    pyRound x d ≤ (n : ℚ) := by
  unfold pyRound
  rw [div_le_iff₀ (by positivity)]
  have hbase : x * 10 ^ d ≤ ((n * 10 ^ d : ℤ) : ℚ) := by
    push_cast
    have : (0 : ℚ) < 10 ^ d := by positivity
    nlinarith
  have := roundHalfEven_le hbase
  exact_mod_cast this

/-! ## Configuration (`app/config/sensor_config.py`)

Default values of `TemperatureConfig`, `HumidityConfig` and
`EnergyConfig` (pydantic `Field(default=…)` values). -/

/-- `TemperatureConfig` (global / comfort / alert thresholds). -/
structure TemperatureConfig where
  global_min_temp : ℚ := -30
  global_max_temp : ℚ := 50
  comfort_optimal_min : ℚ := 20
  comfort_optimal_max : ℚ := 24
  comfort_acceptable_min : ℚ := 18
  comfort_acceptable_max : ℚ := 26
  alert_critical_min : ℚ := 10
  alert_critical_max : ℚ := 35
  alert_warning_min : ℚ := 16
  alert_warning_max : ℚ := 28
  seasonal_variation : ℚ := 8
  deriving Repr, DecidableEq

/-- `HumidityConfig` (global / comfort / alert thresholds). -/
structure HumidityConfig where
  global_min_humidity : ℚ := 20
  global_max_humidity : ℚ := 95
  comfort_optimal_min : ℚ := 40
  comfort_optimal_max : ℚ := 60
  comfort_acceptable_min : ℚ := 35
  comfort_acceptable_max : ℚ := 65
  alert_critical_min : ℚ := 25
  alert_critical_max : ℚ := 80
  alert_warning_min : ℚ := 30
  alert_warning_max : ℚ := 70
  deriving Repr, DecidableEq

/-- `EnergyConfig` (alert thresholds used by `check_room_alerts`). -/
structure EnergyConfig where
  alert_high_power : ℚ := 5000
  alert_critical_power : ℚ := 8000
  deriving Repr, DecidableEq

/-- `SensorSystemConfig` as used by `SensorSimulator` (`self.config`). -/
structure SensorSystemConfig where
  temperature : TemperatureConfig := {}
  humidity : HumidityConfig := {}
  energy : EnergyConfig := {}
  deriving Repr, DecidableEq

/-- The default configuration built by `SensorSystemConfig()`. -/
def defaultConfig : SensorSystemConfig := {}

/-- A per-room entry of `TemperatureConfig.room_configs`. -/
structure RoomTempConfig where
  base_temp : ℚ
  temp_range : ℚ
  heating_efficiency : ℚ
  sensor_accuracy : ℚ
  thermal_mass : ℚ
  external_influence : ℚ
  deriving Repr, DecidableEq

/-- `room_configs["living_room"]` defaults. -/
def livingRoomTempConfig : RoomTempConfig :=
  { base_temp := 22, temp_range := 3, heating_efficiency := 0.8
    sensor_accuracy := 0.5, thermal_mass := 0.7, external_influence := 0.6 }

/-! ## Temperature worker (`app/workers/temperature.py`) -/

/-- A per-room entry of `TemperatureWorker.room_states`. -/
structure TempRoomState where
  current_temp : ℚ
  target_temp : ℚ
  last_update : ℚ
  trend : ℚ
  heating_active : Bool
  cooling_active : Bool
  deriving Repr, DecidableEq

/-- The initial room state built in `TemperatureWorker.__init__`. -/
def initTempState (cfg : RoomTempConfig) (now : ℚ) : TempRoomState :=
  { current_temp := cfg.base_temp, target_temp := cfg.base_temp
    last_update := now, trend := 0
    heating_active := false, cooling_active := false }

/-- Ambient inputs of one `update_room_temperature` call: the wall-clock
dependent pattern terms (`get_seasonal_adjustment()`,
`get_daily_pattern(room)`, computed with `math.sin` / `math.exp` from the
current date and time), the Gaussian sensor-noise draw, and the current
timestamp `datetime.now()`. -/
structure TempEnv where
  seasonal_adjustment : ℚ
  daily_pattern : ℚ
  noise : ℚ
  now : ℚ
  deriving Repr, DecidableEq

/-- `TemperatureWorker.update_room_temperature` for an indoor room
(`room_id != "outdoor"`): computes the target from base, (scaled)
seasonal and daily patterns and outdoor influence, flips the
heating/cooling flags by hysteresis, applies the thermal-mass-scaled
change plus actuator contribution plus sensor noise, and stores the
resulting (unclamped) value in the room state.
Returns the new temperature together with the updated state. -/
def update_room_temperature (cfg : RoomTempConfig) (env : TempEnv)
    (outdoor_temp : ℚ) (st : TempRoomState) : ℚ × TempRoomState :=
  let seasonal_adj := env.seasonal_adjustment * 0.3
  let daily_adj := env.daily_pattern
  let target_temp := cfg.base_temp + seasonal_adj + daily_adj
      + (outdoor_temp - cfg.base_temp) * cfg.external_influence * 0.1
  let temp_diff := target_temp - st.current_temp
  let heating : Bool := decide (temp_diff > 1)
  let cooling : Bool := decide (temp_diff < -1)
  let change_rate := temp_diff * (1 - cfg.thermal_mass) * 0.1
  let change_rate := if heating then change_rate + cfg.heating_efficiency * 0.5
      else if cooling then change_rate - cfg.heating_efficiency * 0.3
      else change_rate
  let new_temp := st.current_temp + change_rate + env.noise
  (new_temp,
    { st with current_temp := new_temp, target_temp := target_temp
              last_update := env.now
              heating_active := heating, cooling_active := cooling })

/-- `TemperatureWorker.update_room_temperature` for the `"outdoor"`
room: a pass-through of the separately computed outdoor temperature. -/
def update_outdoor_temperature (env : TempEnv) (outdoor_temp : ℚ)
    (st : TempRoomState) : ℚ × TempRoomState :=
  (outdoor_temp,
    { st with current_temp := outdoor_temp, target_temp := outdoor_temp
              last_update := env.now })

/-- The reading dict built by `generate_temperature_reading`. -/
structure TempReading where
  room_id : String
  temperature : ℚ
  heating_active : Bool
  cooling_active : Bool
  outdoor_temp : ℚ
  timestamp : ℚ
  deriving Repr, DecidableEq

/-- `TemperatureWorker.generate_temperature_reading` for an indoor room:
updates the room state via `update_room_temperature`, then clamps the
reading value to `[global_min_temp, global_max_temp]` and rounds it to
one decimal. Only the emitted reading is clamped; the stored state keeps
the raw value. -/
def generate_temperature_reading (gcfg : TemperatureConfig)
    (cfg : RoomTempConfig) (env : TempEnv) (room_id : String)
    (outdoor_temp : ℚ) (st : TempRoomState) : TempReading × TempRoomState :=
  let (t, st') := update_room_temperature cfg env outdoor_temp st
  let temperature := max gcfg.global_min_temp (min gcfg.global_max_temp t)
  ({ room_id := room_id
     temperature := pyRound temperature 1
     heating_active := st'.heating_active
     cooling_active := st'.cooling_active
     outdoor_temp := pyRound outdoor_temp 1
     timestamp := env.now }, st')

/-! ## Humidity worker (`app/workers/humidity.py`) -/

/-- A per-room entry of `HumidityWorker.room_configs`. -/
structure RoomHumConfig where
  base_humidity : ℚ
  humidity_range : ℚ
  ventilation_rate : ℚ
  sensor_accuracy : ℚ
  dehumidifier : Bool
  deriving Repr, DecidableEq

/-- `room_configs["living_room"]` of the humidity worker. -/
def livingRoomHumConfig : RoomHumConfig :=
  { base_humidity := 45, humidity_range := 15, ventilation_rate := 0.6
    sensor_accuracy := 3, dehumidifier := false }

/-- A per-room entry of `HumidityWorker.room_states`. -/
structure HumRoomState where
  current_humidity : ℚ
  target_humidity : ℚ
  last_update : ℚ
  trend : ℚ
  ventilation_active : Bool
  dehumidifier_active : Bool
  moisture_event : Bool
  deriving Repr, DecidableEq

/-- The initial room state built in `HumidityWorker.__init__`. -/
def initHumState (cfg : RoomHumConfig) (now : ℚ) : HumRoomState :=
  { current_humidity := cfg.base_humidity, target_humidity := cfg.base_humidity
    last_update := now, trend := 0
    ventilation_active := false, dehumidifier_active := false
    moisture_event := false }

/-- Ambient inputs of one `update_room_humidity` call: the wall-clock
dependent pattern terms, the outcome of `simulate_moisture_events`
(the drawn moisture increase and whether the event fired, which sets the
`moisture_event` flag), the Gaussian sensor-noise draw, and the current
timestamp. -/
structure HumEnv where
  seasonal_adjustment : ℚ
  daily_pattern : ℚ
  moisture : ℚ
  moisture_fired : Bool
  noise : ℚ
  now : ℚ
  deriving Repr, DecidableEq

/-- `HumidityWorker.get_outdoor_humidity`: seasonal and daily patterns
plus a stochastic weather excursion (10% chance per tick; 70% of the
events are rain) and Gaussian noise, clamped to `[20, 95]`.
`pWeather`, `pRain` are the two `random.random()` draws and `u` the
`random.uniform` draw (as a fraction of the drawn interval). -/
def get_outdoor_humidity (base : ℚ) (seasonal daily : ℚ)
    (pWeather pRain u noise : ℚ) : ℚ :=
  let outdoor := base + seasonal + daily
  let weather_effect := if pWeather < 0.1 then
      (if pRain < 0.7 then 10 + (25 - 10) * u else -(5 + (15 - 5) * u))
    else 0
  let outdoor := outdoor + weather_effect + noise
  max 20 (min 95 outdoor)

/-- `HumidityWorker.update_room_humidity` for an indoor room: computes
the target from base, (scaled) seasonal and daily patterns, ventilation
influence of the outdoor humidity and moisture events; flips the
ventilation / dehumidifier flags by hysteresis; applies the slow change
rate plus sensor noise; stores the resulting (unclamped) value in the
room state and resets the `moisture_event` flag. The returned value —
not the stored one — is clamped to `[20, 95]`. -/
def update_room_humidity (cfg : RoomHumConfig) (env : HumEnv)
    (outdoor_humidity : ℚ) (st : HumRoomState) : ℚ × HumRoomState :=
  let seasonal_adj := env.seasonal_adjustment * 0.5
  let daily_adj := env.daily_pattern
  let target_humidity := cfg.base_humidity + seasonal_adj + daily_adj
      + (outdoor_humidity - cfg.base_humidity) * cfg.ventilation_rate * 0.1
  let moisture_event := env.moisture
  let target_humidity := target_humidity + moisture_event
  let humidity_diff := target_humidity - st.current_humidity
  let ventilation : Bool :=
    if st.current_humidity > 60 ∧ cfg.ventilation_rate > 0.5 then true
    else if st.current_humidity < 45 then false
    else st.ventilation_active
  let dehumidifying : Bool :=
    if cfg.dehumidifier ∧ st.current_humidity > 55 then true
    else if st.current_humidity < 50 then false
    else st.dehumidifier_active
  let humidity_diff := if ventilation then
      humidity_diff + (outdoor_humidity - st.current_humidity) * 0.1
    else humidity_diff
  let humidity_diff := if dehumidifying then humidity_diff - 5 else humidity_diff
  let change_rate := humidity_diff * 0.05
  let new_humidity := st.current_humidity + change_rate + env.noise
  (max 20 (min 95 new_humidity),
    { st with current_humidity := new_humidity, last_update := env.now
              ventilation_active := ventilation
              dehumidifier_active := dehumidifying
              moisture_event := false })

/-- `HumidityWorker.update_room_humidity` for the `"outdoor"` room:
pass-through of the separately computed outdoor humidity (stored
unclamped, returned clamped). -/
def update_outdoor_humidity (env : HumEnv) (outdoor_humidity : ℚ)
    (st : HumRoomState) : ℚ × HumRoomState :=
  (max 20 (min 95 outdoor_humidity),
    { st with current_humidity := outdoor_humidity, last_update := env.now })

/-- `HumidityWorker.get_comfort_level`. -/
def get_comfort_level (humidity : ℚ) : String :=
  if humidity < 30 then "very_dry"
  else if humidity < 40 then "dry"
  else if humidity ≤ 60 then "comfortable"
  else if humidity ≤ 70 then "humid"
  else "very_humid"

/-- The reading dict built by `generate_humidity_reading`. -/
structure HumReading where
  room_id : String
  humidity : ℚ
  comfort_level : String
  ventilation_active : Bool
  dehumidifier_active : Bool
  moisture_event : Bool
  outdoor_humidity : ℚ
  timestamp : ℚ
  deriving Repr, DecidableEq

/-- `HumidityWorker.generate_humidity_reading` for an indoor room:
updates the room state via `update_room_humidity` and emits the
(re-)clamped, rounded value; the stored state keeps the raw value. -/
def generate_humidity_reading (cfg : RoomHumConfig) (env : HumEnv)
    (room_id : String) (outdoor_humidity : ℚ) (st : HumRoomState) :
    HumReading × HumRoomState :=
  let (h, st') := update_room_humidity cfg env outdoor_humidity st
  let humidity := max 20 (min 95 h)
  ({ room_id := room_id
     humidity := pyRound humidity 1
     comfort_level := get_comfort_level humidity
     ventilation_active := st'.ventilation_active
     dehumidifier_active := st'.dehumidifier_active
     moisture_event := st'.moisture_event
     outdoor_humidity := pyRound outdoor_humidity 1
     timestamp := env.now }, st')

/-! ## Energy worker (`app/workers/energy.py`) -/

/-- A per-device entry of `EnergyWorker.device_configs`. -/
structure DeviceConfig where
  base_power : ℚ
  standby : ℚ
  usage_pattern : String
  deriving Repr, DecidableEq

/-- A per-device entry of `EnergyWorker.device_states`. -/
structure DeviceState where
  current_power : ℚ
  is_active : Bool
  last_update : ℚ
  daily_consumption : ℚ
  efficiency_rating : ℚ
  deriving Repr, DecidableEq

/-- A per-room entry of `EnergyWorker.room_totals`. -/
structure RoomTotals where
  current_power : ℚ
  daily_consumption : ℚ
  peak_power : ℚ
  cost_today : ℚ
  deriving Repr, DecidableEq

/-- `random.uniform(a, b)` modelled as the point a fraction `u ∈ [0,1]`
of the way through the interval. -/
def uniform (a b u : ℚ) : ℚ := a + (b - a) * u

/-- Ambient inputs of one `calculate_device_usage` call: the current
hour and weekday, the seasonal factor (`get_seasonal_factor()`), and
rational-valued oracles for `math.sin` / `math.exp` / `math.pi` (the
transcendental functions appear only inside probability expressions). -/
structure EnergyEnv where
  hour : ℕ
  day_of_week : ℕ
  seasonal_factor : ℚ
  sinQ : ℚ → ℚ
  expQ : ℚ → ℚ
  piQ : ℚ

/-- The two random draws consumed by one device's usage calculation:
`p` for the `random.random()` activation gate and `u` for the
`random.uniform` power fraction. -/
structure Draw where
  p : ℚ
  u : ℚ
  deriving Repr, DecidableEq

/-- `EnergyWorker.get_energy_rate`: 3-tier time-of-day tariff. -/
def get_energy_rate (hour : ℕ) : ℚ × String :=
  if 18 ≤ hour ∧ hour ≤ 21 then (0.28, "peak")
  else if 23 ≤ hour ∨ hour ≤ 6 then (0.12, "off_peak")
  else (0.18, "standard")

/-- `EnergyWorker.calculate_device_usage` (pure part): the string-keyed
usage-pattern dispatch producing the device's drawn power and activity
flag, then divided by the device's efficiency rating. Mirrors every
branch of the `if/elif` chain in the source. -/
def calculate_device_usage (cfg : DeviceConfig) (efficiency : ℚ)
    (env : EnergyEnv) (d : Draw) : ℚ × Bool :=
  let hour := env.hour
  let hq : ℚ := (hour : ℚ)
  let base_power := cfg.base_power
  let standby_power := cfg.standby
  let dflt : ℚ × Bool := (standby_power, false)
  let res : ℚ × Bool :=
    if cfg.usage_pattern = "constant" then (base_power, true)
    else if cfg.usage_pattern = "evening" then
      (if 18 ≤ hour ∧ hour ≤ 23 then
        (if d.p < 0.7 + 0.3 * env.sinQ ((hq - 18) * env.piQ / 5) then
          (base_power * uniform 0.6 1 d.u, true) else dflt)
       else dflt)
    else if cfg.usage_pattern = "morning" then
      (if 6 ≤ hour ∧ hour ≤ 9 then
        (if d.p < 0.8 * env.expQ (-((hq - 7.5) ^ 2) / 2) then
          (base_power * uniform 0.8 1 d.u, true) else dflt)
       else dflt)
    else if cfg.usage_pattern = "meal_prep" then
      (if (7 ≤ hour ∧ hour ≤ 9) ∨ (12 ≤ hour ∧ hour ≤ 14) ∨ (17 ≤ hour ∧ hour ≤ 20) then
        (if d.p < 0.4 * env.expQ (-((hq - 12) ^ 2) / 20) then
          (base_power * uniform 0.7 1 d.u, true) else dflt)
       else dflt)
    else if cfg.usage_pattern = "meal_cleanup" then
      (if (8 ≤ hour ∧ hour ≤ 10) ∨ (13 ≤ hour ∧ hour ≤ 15) ∨ (19 ≤ hour ∧ hour ≤ 22) then
        (if d.p < 0.3 then (base_power * uniform 0.8 1 d.u, true) else dflt)
       else dflt)
    else if cfg.usage_pattern = "cooking" then
      (if (11 ≤ hour ∧ hour ≤ 14) ∨ (17 ≤ hour ∧ hour ≤ 20) then
        (if d.p < 0.2 then (base_power * uniform 0.9 1 d.u, true) else dflt)
       else dflt)
    else if cfg.usage_pattern = "meal_times" then
      (if (7 ≤ hour ∧ hour ≤ 9) ∨ (12 ≤ hour ∧ hour ≤ 14) ∨ (17 ≤ hour ∧ hour ≤ 21) then
        (if d.p < 0.8 then (base_power * uniform 0.8 1 d.u, true) else dflt)
       else dflt)
    else if cfg.usage_pattern = "evening_morning" then
      (if (6 ≤ hour ∧ hour ≤ 8) ∨ (19 ≤ hour ∧ hour ≤ 23) then
        (if d.p < 0.6 then (base_power * uniform 0.5 1 d.u, true) else dflt)
       else dflt)
    else if cfg.usage_pattern = "morning_evening" then
      (if (6 ≤ hour ∧ hour ≤ 9) ∨ (19 ≤ hour ∧ hour ≤ 23) then
        (if d.p < 0.7 then (base_power * uniform 0.8 1 d.u, true) else dflt)
       else dflt)
    else if cfg.usage_pattern = "night" then
      (if 22 ≤ hour ∨ hour ≤ 6 then
        (if d.p < 0.8 then (base_power * uniform 0.6 1 d.u, true) else dflt)
       else dflt)
    else if cfg.usage_pattern = "bathroom_use" then
      (if (6 ≤ hour ∧ hour ≤ 9) ∨ (19 ≤ hour ∧ hour ≤ 23) then
        (if d.p < 0.4 then (base_power * uniform 0.8 1 d.u, true) else dflt)
       else dflt)
    else if cfg.usage_pattern = "hot_water" then
      (if (6 ≤ hour ∧ hour ≤ 9) ∨ (18 ≤ hour ∧ hour ≤ 22) then
        (if d.p < 0.5 then (base_power * uniform 0.7 1 d.u, true)
         else (standby_power, false))
       else dflt)
    else if cfg.usage_pattern = "seasonal" then
      (if env.seasonal_factor > 1.2 then
        (if 10 ≤ hour ∧ hour ≤ 22 then
          (if d.p < 0.6 * env.seasonal_factor then
            (base_power * uniform 0.8 1 d.u, true) else dflt)
         else dflt)
       else dflt)
    else if cfg.usage_pattern = "intermittent" then
      (if d.p < 0.1 then (base_power * uniform 0.8 1 d.u, true) else dflt)
    else if cfg.usage_pattern = "humidity" then
      (if d.p < 0.3 then (base_power * uniform 0.7 1 d.u, true) else dflt)
    else if cfg.usage_pattern = "weekend" then
      (if 5 ≤ env.day_of_week then
        (if 9 ≤ hour ∧ hour ≤ 17 then
          (if d.p < 0.3 then (base_power * uniform 0.8 1 d.u, true) else dflt)
         else dflt)
       else dflt)
    else if cfg.usage_pattern = "commute" then
      (if (7 ≤ hour ∧ hour ≤ 9) ∨ (17 ≤ hour ∧ hour ≤ 19) then
        (if d.p < 0.2 then (base_power * uniform 0.9 1 d.u, true) else dflt)
       else dflt)
    else if cfg.usage_pattern = "scheduled" then
      (if hour = 6 ∨ hour = 18 then
        (if d.p < 0.8 then (base_power * uniform 0.9 1 d.u, true) else dflt)
       else dflt)
    else if cfg.usage_pattern = "occasional" then
      (if d.p < 0.05 then (base_power * uniform 0.8 1 d.u, true) else dflt)
    else if cfg.usage_pattern = "random" then
      (if d.p < 0.3 then (base_power * uniform 0.4 1 d.u, true) else dflt)
    else dflt
  (res.1 / efficiency, res.2)

/-- The state-updating part of `calculate_device_usage`: stores the
computed power, activity flag and timestamp into the device state. -/
def apply_device_usage (cfg : DeviceConfig) (env : EnergyEnv) (d : Draw)
    (now : ℚ) (st : DeviceState) : ℚ × DeviceState :=
  let (p, a) := calculate_device_usage cfg st.efficiency_rating env d
  (p, { st with current_power := p, is_active := a, last_update := now })

/-- One device of a room during an energy tick: its id, configuration,
current state and the random draws its usage calculation consumes. -/
structure DeviceEntry where
  device_id : String
  config : DeviceConfig
  state : DeviceState
  draw : Draw
  deriving Repr, DecidableEq

/-- The per-device sub-dict of an energy reading. -/
structure DeviceReading where
  power : ℚ
  is_active : Bool
  efficiency : ℚ
  deriving Repr, DecidableEq

/-- The reading dict built by `generate_energy_reading`. -/
structure EnergyReading where
  room_id : String
  current_power : ℚ
  daily_consumption : ℚ
  cost_today : ℚ
  energy_rate : ℚ
  rate_type : String
  peak_power : ℚ
  device_count : ℕ
  active_devices : ℕ
  devices : List (String × DeviceReading)
  deriving Repr, DecidableEq

/-- The power a device draws this tick (the value returned by
`calculate_device_usage`). -/
def devicePower (env : EnergyEnv) (e : DeviceEntry) : ℚ :=
  (calculate_device_usage e.config e.state.efficiency_rating env e.draw).1

/-- One iteration of the device loop of `generate_energy_reading`:
accumulate `room_power`, extend the `device_readings` dict and record
the updated device state. -/
def energyDeviceStep (env : EnergyEnv) (now : ℚ)
    (acc : ℚ × List (String × DeviceReading) × List DeviceEntry)
    (e : DeviceEntry) : ℚ × List (String × DeviceReading) × List DeviceEntry :=
  let (p, st') := apply_device_usage e.config env e.draw now e.state
  (acc.1 + p,
   acc.2.1 ++ [(e.device_id,
     { power := pyRound p 2, is_active := st'.is_active
       efficiency := pyRound st'.efficiency_rating 2 })],
   acc.2.2 ++ [{ e with state := st' }])

/-- The device loop of `generate_energy_reading`, in iteration order. -/
def energyDeviceLoop (env : EnergyEnv) (now : ℚ)
    (entries : List DeviceEntry) :
    ℚ × List (String × DeviceReading) × List DeviceEntry :=
  entries.foldl (energyDeviceStep env now) (0, [], [])

/-- `EnergyWorker.generate_energy_reading`: computes each device's power
for this tick, sums them into the room total, accumulates incremental
kWh and cost at the current tariff, tracks the running peak, and emits
the reading. -/
def generate_energy_reading (env : EnergyEnv) (now : ℚ) (room_id : String)
    (entries : List DeviceEntry) (totals : RoomTotals) :
    EnergyReading × List DeviceEntry × RoomTotals :=
  let loopResult := energyDeviceLoop env now entries
  let room_power := loopResult.1
  let device_readings := loopResult.2.1
  let entries' := loopResult.2.2
  let consumption_increment := room_power / 1000 * (30 / 3600)
  let rate := (get_energy_rate env.hour).1
  let rate_type := (get_energy_rate env.hour).2
  let cost_increment := consumption_increment * rate
  let totals' : RoomTotals :=
    { current_power := room_power
      daily_consumption := totals.daily_consumption + consumption_increment
      cost_today := totals.cost_today + cost_increment
      peak_power := if room_power > totals.peak_power then room_power
        else totals.peak_power }
  ({ room_id := room_id
     current_power := pyRound room_power 2
     daily_consumption := pyRound totals'.daily_consumption 4
     cost_today := pyRound totals'.cost_today 2
     energy_rate := rate
     rate_type := rate_type
     peak_power := pyRound totals'.peak_power 2
     device_count := device_readings.length
     active_devices := (device_readings.filter (fun d => d.2.is_active)).length
     devices := device_readings }, entries', totals')

/-! ## Coordinator (`app/workers/sensor_simulator.py`) -/

/-- The dict returned by `SensorSimulator.calculate_comfort_score`. -/
structure ComfortResult where
  overall_score : ℚ
  comfort_level : String
  temperature_score : ℚ
  humidity_score : ℚ
  recommendations : List String
  deriving Repr, DecidableEq

/-- `SensorSimulator.get_comfort_recommendations`. -/
def get_comfort_recommendations (temp humidity : ℚ) : List String :=
  let recs : List String :=
    (if temp < 18 then ["Consider increasing heating"]
     else if temp > 26 then ["Consider increasing cooling"] else [])
    ++ (if humidity < 35 then ["Consider using a humidifier"]
        else if humidity > 65 then
          ["Consider using a dehumidifier or improving ventilation"] else [])
    ++ (if temp > 24 ∧ humidity > 60 then
          ["High temperature and humidity - consider air conditioning"] else [])
  if recs = [] then ["Comfort conditions are optimal"] else recs

/-- `SensorSimulator.calculate_comfort_score`: band step functions for
each sub-score, weighted 0.6 / 0.4 overall score, and the comfort-level
classification. -/
def calculate_comfort_score (config : SensorSystemConfig)
    (temp humidity : ℚ) : ComfortResult :=
  let tc := config.temperature
  let hc := config.humidity
  let temp_score : ℚ :=
    if tc.comfort_optimal_min ≤ temp ∧ temp ≤ tc.comfort_optimal_max then 100
    else if tc.comfort_acceptable_min ≤ temp ∧ temp ≤ tc.comfort_acceptable_max then 80
    else if tc.alert_warning_min ≤ temp ∧ temp ≤ tc.alert_warning_max then 60
    else 40
  let humidity_score : ℚ :=
    if hc.comfort_optimal_min ≤ humidity ∧ humidity ≤ hc.comfort_optimal_max then 100
    else if hc.comfort_acceptable_min ≤ humidity ∧ humidity ≤ hc.comfort_acceptable_max then 80
    else if hc.alert_warning_min ≤ humidity ∧ humidity ≤ hc.alert_warning_max then 60
    else 40
  let overall_score := temp_score * 0.6 + humidity_score * 0.4
  let comfort_level : String :=
    if overall_score ≥ 90 then "excellent"
    else if overall_score ≥ 80 then "good"
    else if overall_score ≥ 60 then "acceptable"
    else "poor"
  { overall_score := pyRound overall_score 1
    comfort_level := comfort_level
    temperature_score := temp_score
    humidity_score := humidity_score
    recommendations := get_comfort_recommendations temp humidity }

/-- One entry of the alert list built by `check_room_alerts`. The
interpolated reading value of the `message` string is carried in
`value`. -/
structure Alert where
  atype : String
  severity : String
  value : ℚ
  recommendation : String
  deriving Repr, DecidableEq

/-- `SensorSimulator.check_room_alerts`: the fixed ordered rule list —
per domain an `if/elif` chain with critical bounds first. -/
def check_room_alerts (config : SensorSystemConfig)
    (temp humidity power : ℚ) : List Alert :=
  let tc := config.temperature
  let hc := config.humidity
  let ec := config.energy
  let tempAlerts : List Alert :=
    if temp < tc.alert_critical_min then
      [{ atype := "temperature", severity := "critical", value := temp
         recommendation := "Check heating system immediately" }]
    else if temp > tc.alert_critical_max then
      [{ atype := "temperature", severity := "critical", value := temp
         recommendation := "Check cooling system immediately" }]
    else if temp < tc.alert_warning_min ∨ temp > tc.alert_warning_max then
      [{ atype := "temperature", severity := "warning", value := temp
         recommendation := "Adjust thermostat" }]
    else []
  let humAlerts : List Alert :=
    if humidity < hc.alert_critical_min then
      [{ atype := "humidity", severity := "warning", value := humidity
         recommendation := "Consider using a humidifier" }]
    else if humidity > hc.alert_critical_max then
      [{ atype := "humidity", severity := "critical", value := humidity
         recommendation := "Check for leaks and improve ventilation" }]
    else if humidity > hc.alert_warning_max then
      [{ atype := "humidity", severity := "warning", value := humidity
         recommendation := "Consider dehumidifier or better ventilation" }]
    else []
  let energyAlerts : List Alert :=
    if power > ec.alert_high_power then
      [{ atype := "energy", severity := "warning", value := power
         recommendation := "Check for energy-intensive devices" }]
    else []
  tempAlerts ++ humAlerts ++ energyAlerts

/-- A message broadcast by the coordinator's monitoring loop. -/
inductive SysMsg where
  | system_status : SysMsg
  | system_alert (worker : String) : SysMsg
  deriving Repr, DecidableEq

/-- `SensorSimulator.check_system_alerts`: for every worker whose
`is_running` is false while the coordinator's `is_running` is true,
broadcast a critical system alert (level-triggered: the check carries no
memory of previously reported workers). -/
def check_system_alerts (is_running : Bool)
    (workers : List (String × Bool)) : List SysMsg :=
  (workers.filter (fun w => is_running && !w.2)).map
    (fun w => SysMsg.system_alert w.1)

/-- The statistics mutated by `run_monitoring_loop`. -/
structure MonStats where
  total_readings : ℕ
  errors : ℕ
  deriving Repr, DecidableEq

/-- One iteration of `SensorSimulator.run_monitoring_loop` (the
non-raising path): bump the statistics, re-broadcast the system status
every 10 cycles, then run `check_system_alerts`. -/
def run_monitoring_cycle (is_running : Bool)
    (workers : List (String × Bool)) (stats : MonStats) :
    MonStats × List SysMsg :=
  let stats' := { stats with total_readings := stats.total_readings + 1 }
  let statusMsgs : List SysMsg :=
    if stats'.total_readings % 10 = 0 then [SysMsg.system_status] else []
  (stats', statusMsgs ++ check_system_alerts is_running workers)

/-- `n` consecutive iterations of the monitoring loop with the worker
flags held fixed, collecting every broadcast message in order. -/
def run_monitoring (is_running : Bool) (workers : List (String × Bool)) :
    MonStats → ℕ → MonStats × List SysMsg
  | s, 0 => (s, [])
  | s, n + 1 =>
    let (s1, m1) := run_monitoring_cycle is_running workers s
    let (s2, m2) := run_monitoring is_running workers s1 n
    (s2, m1 ++ m2)

/-- The per-room simulation state touched by `get_room_summary`. -/
structure RoomSimState where
  tempSt : TempRoomState
  humSt : HumRoomState
  devices : List DeviceEntry
  totals : RoomTotals
  deriving Repr, DecidableEq

/-- The dict returned by `get_room_summary`. -/
structure RoomSummary where
  room_id : String
  temperature : TempReading
  humidity : HumReading
  energy : EnergyReading
  comfort_score : ComfortResult
  alerts : List Alert
  deriving Repr, DecidableEq

/-- `SensorSimulator.get_room_summary` for an indoor room: invokes the
three workers' on-demand reading generators (each of which mutates its
room state), then derives the comfort score and alert list from the
emitted readings. Returns the summary together with the updated
simulation state. -/
def get_room_summary (config : SensorSystemConfig)
    (tcfg : RoomTempConfig) (hcfg : RoomHumConfig)
    (tenv : TempEnv) (henv : HumEnv) (eenv : EnergyEnv) (enow : ℚ)
    (room_id : String) (outdoor_temp outdoor_humidity : ℚ)
    (st : RoomSimState) : RoomSummary × RoomSimState :=
  let (tr, tst') := generate_temperature_reading config.temperature tcfg tenv
      room_id outdoor_temp st.tempSt
  let (hr, hst') := generate_humidity_reading hcfg henv room_id
      outdoor_humidity st.humSt
  let (er, dev', tot') := generate_energy_reading eenv enow room_id
      st.devices st.totals
  ({ room_id := room_id
     temperature := tr
     humidity := hr
     energy := er
     comfort_score := calculate_comfort_score config tr.temperature hr.humidity
     alerts := check_room_alerts config tr.temperature hr.humidity
       er.current_power },
   { tempSt := tst', humSt := hst', devices := dev', totals := tot' })

/-! ## Python dict model -/

/-- `d[k]` lookup on an insertion-ordered association list. -/
def dictGet {β : Type} : List (String × β) → String → Option β
  | [], _ => none
  | (k, v) :: rest, key => if k = key then some v else dictGet rest key

/-- `d[k] = v`: update in place if the key exists, append otherwise
(CPython dicts preserve insertion order). -/
def dictSet {β : Type} : List (String × β) → String → β → List (String × β)
  | [], key, v => [(key, v)]
  | (k, w) :: rest, key, v =>
    if k = key then (key, v) :: rest else (k, w) :: dictSet rest key v

/-- `del d[k]` (no-op when the key is absent; callers guard with `in`). -/
def dictDel {β : Type} : List (String × β) → String → List (String × β)
  | [], _ => []
  | (k, w) :: rest, key =>
    if k = key then rest else (k, w) :: dictDel rest key

theorem dictGet_dictSet_self {β : Type} (m : List (String × β))
    (k : String) (v : β) : dictGet (dictSet m k v) k = some v := by
  induction m with
  | nil => simp [dictGet, dictSet]
  | cons p rest ih =>
    by_cases h : p.1 = k
    · simp [dictSet, dictGet, h]
    · simp [dictSet, dictGet, h, ih]

theorem dictGet_dictSet_ne {β : Type} (m : List (String × β))
    {k k' : String} (v : β) (h : k' ≠ k) :
    dictGet (dictSet m k v) k' = dictGet m k' := by
  have h' : k ≠ k' := Ne.symm h
  induction m with
  | nil => simp [dictGet, dictSet, h']
  | cons p rest ih =>
    obtain ⟨pk, pv⟩ := p
    by_cases hp : pk = k
    · subst hp
      simp [dictSet, dictGet, h']
    · simp [dictSet, dictGet, hp, ih]

/-! ## WebSocket manager (`app/core/websocket.py`) -/

/-- The `connection_metadata` entry of one client. -/
structure ConnMeta where
  connected_at : ℚ
  client_ip : String
  rooms : List String
  sensors : List String
  deriving Repr, DecidableEq

/-- The mutable state of `WebSocketManager`: the connection table
(modelled by its ordered key list; the socket objects carry no further
state we need) and the metadata / subscription dicts. -/
structure WSState where
  active_connections : List String
  connection_metadata : List (String × ConnMeta)
  room_subscriptions : List (String × List String)
  sensor_subscriptions : List (String × List String)
  deriving Repr, DecidableEq

/-- The empty manager built by `WebSocketManager.__init__`. -/
def initWSState : WSState :=
  { active_connections := [], connection_metadata := []
    room_subscriptions := [], sensor_subscriptions := [] }

/-- Outbound WebSocket messages (the payload of worker updates and of
sensor data is carried opaquely as a string). -/
inductive Msg where
  | connection_confirmed (client_id : String)
  | subscription_confirmed (kind id : String)
  | unsubscription_confirmed (kind id : String)
  | pong
  | status (client_id : String) (connected_clients : ℕ)
      (rooms sensors : List String)
  | error (text : String)
  | sensor_data (sensor_type payload : String)
  | update (payload : String)
  deriving Repr, DecidableEq

/-- A batch of deliveries: (recipient connection id, message) pairs in
send order. -/
abbrev Sends := List (String × Msg)

/-- `send_personal_message` (non-failing path): delivers when the
client is connected, warns and sends nothing otherwise. -/
def send_personal_message (st : WSState) (client_id : String)
    (m : Msg) : Sends :=
  if client_id ∈ st.active_connections then [(client_id, m)] else []

/-- `WebSocketManager.connect` with an explicitly supplied `client_id`
(falsy ids are replaced by a fresh UUID, modelled by `fresh`): stores
the connection under that id — overwriting any existing entry — resets
the client metadata to empty subscription lists, and sends the
connection confirmation. The subscription dicts are not touched. -/
def connect (st : WSState) (client_id : Option String) (fresh : String)
    (now : ℚ) (ip : String) : String × Sends × WSState :=
  let cid := match client_id with
    | none => fresh
    | some c => if c = "" then fresh else c
  let active' := if cid ∈ st.active_connections then st.active_connections
    else st.active_connections ++ [cid]
  let st' : WSState :=
    { st with active_connections := active'
              connection_metadata := dictSet st.connection_metadata cid
                { connected_at := now, client_ip := ip
                  rooms := [], sensors := [] } }
  (cid, send_personal_message st' cid (Msg.connection_confirmed cid), st')

/-- `WebSocketManager.disconnect`: drop the connection and its metadata
and remove the client from every topic list (idempotent). -/
def disconnect (st : WSState) (client_id : String) : WSState :=
  { active_connections := st.active_connections.erase client_id
    connection_metadata := dictDel st.connection_metadata client_id
    room_subscriptions := st.room_subscriptions.map
      (fun e => (e.1, e.2.erase client_id))
    sensor_subscriptions := st.sensor_subscriptions.map
      (fun e => (e.1, e.2.erase client_id)) }

/-- `broadcast_message` (non-failing path): deliver to every connected
client in table order. -/
def broadcast_message (st : WSState) (m : Msg) : Sends :=
  st.active_connections.map (fun c => (c, m))

/-- Remove a stale client from one room's subscriber list (the guarded
`remove` in `broadcast_to_room`'s pruning pass). -/
def removeRoomSubscriber (st : WSState) (room_id client_id : String) :
    WSState :=
  match dictGet st.room_subscriptions room_id with
  | none => st
  | some subs =>
    if client_id ∈ subs then
      { st with room_subscriptions :=
          dictSet st.room_subscriptions room_id (subs.erase client_id) }
    else st

/-- `broadcast_to_room` (non-failing sends): deliver the message to the
subscribers of the room that are currently connected; subscribers no
longer connected are pruned from the room list and disconnected. -/
def broadcast_to_room (st : WSState) (room_id : String) (m : Msg) :
    Sends × WSState :=
  match dictGet st.room_subscriptions room_id with
  | none => ([], st)
  | some subs =>
    let sends := (subs.filter (fun c => c ∈ st.active_connections)).map
      (fun c => (c, m))
    let stale := subs.filter (fun c => c ∉ st.active_connections)
    let st' := stale.foldl
      (fun s c => disconnect (removeRoomSubscriber s room_id c) c) st
    (sends, st')

/-- Remove a stale client from one sensor type's subscriber list. -/
def removeSensorSubscriber (st : WSState) (sensor_type client_id : String) :
    WSState :=
  match dictGet st.sensor_subscriptions sensor_type with
  | none => st
  | some subs =>
    if client_id ∈ subs then
      { st with sensor_subscriptions :=
          dictSet st.sensor_subscriptions sensor_type (subs.erase client_id) }
    else st

/-- `broadcast_sensor_data` (non-failing sends): deliver the wrapped
`sensor_data` message to the subscribers of the sensor type, pruning
stale entries — and then additionally broadcast the same message to
every connected client ("for dashboard updates"). -/
def broadcast_sensor_data (st : WSState) (sensor_type payload : String) :
    Sends × WSState :=
  let m := Msg.sensor_data sensor_type payload
  let (subscriberSends, st') :=
    match dictGet st.sensor_subscriptions sensor_type with
    | none => ([], st)
    | some subs =>
      let sends := (subs.filter (fun c => c ∈ st.active_connections)).map
        (fun c => (c, m))
      let stale := subs.filter (fun c => c ∉ st.active_connections)
      let st' := stale.foldl
        (fun s c => disconnect (removeSensorSubscriber s sensor_type c) c) st
      (sends, st')
  (subscriberSends ++ broadcast_message st' m, st')

/-- An inbound client command: the `type` field plus the optional
`room_id` / `sensor_type` payload fields (`""` models a missing or
falsy field, which Python's `message.get(...)` / `if not x` treat
alike). -/
structure InMsg where
  mtype : String
  room_id : String := ""
  sensor_type : String := ""
  deriving Repr, DecidableEq

/-- `_handle_room_subscription`: ensure the room's subscriber list
exists, append the client to it and to the client's metadata room list
unless already subscribed, and confirm. A missing metadata entry raises
`KeyError` after the index append — the exception is swallowed by
`handle_message`, so no confirmation is sent and the metadata is left
untouched. -/
def handle_room_subscription (st : WSState) (client_id room_id : String) :
    Sends × WSState :=
  if room_id = "" then
    (send_personal_message st client_id
      (Msg.error "room_id is required for room subscription"), st)
  else
    let st1 := match dictGet st.room_subscriptions room_id with
      | none =>
        { st with room_subscriptions := dictSet st.room_subscriptions room_id [] }
      | some _ => st
    let subs := (dictGet st1.room_subscriptions room_id).getD []
    let confirm := Msg.subscription_confirmed "room" room_id
    if client_id ∈ subs then
      (send_personal_message st1 client_id confirm, st1)
    else
      let st2 :=
        { st1 with room_subscriptions :=
            dictSet st1.room_subscriptions room_id (subs ++ [client_id]) }
      match dictGet st2.connection_metadata client_id with
      | some meta =>
        let meta' := { meta with rooms := meta.rooms ++ [room_id] }
        let st3 :=
          { st2 with connection_metadata :=
              dictSet st2.connection_metadata client_id meta' }
        (send_personal_message st3 client_id confirm, st3)
      | none => ([], st2)

/-- `_handle_room_unsubscription`: remove the client from the room's
subscriber list and from its metadata room list when subscribed, then
confirm (the confirmation is sent even when there was nothing to
remove). When the index contains the client but the metadata list does
not, the metadata `remove` raises `ValueError` after the index removal —
swallowed by `handle_message`, no confirmation. -/
def handle_room_unsubscription (st : WSState) (client_id room_id : String) :
    Sends × WSState :=
  if room_id = "" then
    (send_personal_message st client_id
      (Msg.error "room_id is required for room unsubscription"), st)
  else
    let confirm := Msg.unsubscription_confirmed "room" room_id
    match dictGet st.room_subscriptions room_id with
    | none => (send_personal_message st client_id confirm, st)
    | some subs =>
      if client_id ∈ subs then
        let st1 :=
          { st with room_subscriptions :=
              dictSet st.room_subscriptions room_id (subs.erase client_id) }
        match dictGet st1.connection_metadata client_id with
        | some meta =>
          if room_id ∈ meta.rooms then
            let meta' := { meta with rooms := meta.rooms.erase room_id }
            let st2 :=
              { st1 with connection_metadata :=
                  dictSet st1.connection_metadata client_id meta' }
            (send_personal_message st2 client_id confirm, st2)
          else ([], st1)
        | none => ([], st1)
      else (send_personal_message st client_id confirm, st)

/-- `_handle_sensor_subscription` (mirror of the room handler). -/
def handle_sensor_subscription (st : WSState)
    (client_id sensor_type : String) : Sends × WSState :=
  if sensor_type = "" then
    (send_personal_message st client_id
      (Msg.error "sensor_type is required for sensor subscription"), st)
  else
    let st1 := match dictGet st.sensor_subscriptions sensor_type with
      | none =>
        { st with sensor_subscriptions := dictSet st.sensor_subscriptions sensor_type [] }
      | some _ => st
    let subs := (dictGet st1.sensor_subscriptions sensor_type).getD []
    let confirm := Msg.subscription_confirmed "sensor" sensor_type
    if client_id ∈ subs then
      (send_personal_message st1 client_id confirm, st1)
    else
      let st2 :=
        { st1 with sensor_subscriptions :=
            dictSet st1.sensor_subscriptions sensor_type (subs ++ [client_id]) }
      match dictGet st2.connection_metadata client_id with
      | some meta =>
        let meta' := { meta with sensors := meta.sensors ++ [sensor_type] }
        let st3 :=
          { st2 with connection_metadata :=
              dictSet st2.connection_metadata client_id meta' }
        (send_personal_message st3 client_id confirm, st3)
      | none => ([], st2)

/-- `_handle_sensor_unsubscription` (mirror of the room handler). -/
def handle_sensor_unsubscription (st : WSState)
    (client_id sensor_type : String) : Sends × WSState :=
  if sensor_type = "" then
    (send_personal_message st client_id
      (Msg.error "sensor_type is required for sensor unsubscription"), st)
  else
    let confirm := Msg.unsubscription_confirmed "sensor" sensor_type
    match dictGet st.sensor_subscriptions sensor_type with
    | none => (send_personal_message st client_id confirm, st)
    | some subs =>
      if client_id ∈ subs then
        let st1 :=
          { st with sensor_subscriptions :=
              dictSet st.sensor_subscriptions sensor_type (subs.erase client_id) }
        match dictGet st1.connection_metadata client_id with
        | some meta =>
          if sensor_type ∈ meta.sensors then
            let meta' := { meta with sensors := meta.sensors.erase sensor_type }
            let st2 :=
              { st1 with connection_metadata :=
                  dictSet st1.connection_metadata client_id meta' }
            (send_personal_message st2 client_id confirm, st2)
          else ([], st1)
        | none => ([], st1)
      else (send_personal_message st client_id confirm, st)

/-- `_handle_ping`. -/
def handle_ping (st : WSState) (client_id : String) : Sends × WSState :=
  (send_personal_message st client_id Msg.pong, st)

/-- `_handle_status_request` (a missing metadata entry raises
`KeyError`, swallowed by `handle_message`: no reply). -/
def handle_status_request (st : WSState) (client_id : String) :
    Sends × WSState :=
  match dictGet st.connection_metadata client_id with
  | some meta =>
    (send_personal_message st client_id
      (Msg.status client_id st.active_connections.length meta.rooms
        meta.sensors), st)
  | none => ([], st)

/-- `WebSocketManager.handle_message`: resolve the sender (messages
from sockets not in the connection table are dropped), then dispatch on
the `type` field; unrecognized types get an error reply to the sender
only. -/
def handle_message (st : WSState) (client_id : String) (msg : InMsg) :
    Sends × WSState :=
  if client_id ∈ st.active_connections then
    if msg.mtype = "subscribe_room" then
      handle_room_subscription st client_id msg.room_id
    else if msg.mtype = "unsubscribe_room" then
      handle_room_unsubscription st client_id msg.room_id
    else if msg.mtype = "subscribe_sensor" then
      handle_sensor_subscription st client_id msg.sensor_type
    else if msg.mtype = "unsubscribe_sensor" then
      handle_sensor_unsubscription st client_id msg.sensor_type
    else if msg.mtype = "ping" then
      handle_ping st client_id
    else if msg.mtype = "get_status" then
      handle_status_request st client_id
    else
      (send_personal_message st client_id
        (Msg.error ("Unknown message type: " ++ msg.mtype)), st)
  else ([], st)

/-! ## Theorems about the claims -/

/-- Clamping to `[20, 95]` is idempotent. -/
theorem clamp20_95_idem (x : ℚ) :
    max 20 (min 95 (max 20 (min 95 x))) = max 20 (min 95 x) := by
  rcases le_total x 95 with h | h <;> rcases le_total 20 x with h2 | h2 <;>
    simp [min_def, max_def] <;> split_ifs <;> first | rfl | linarith

/-- C1 (counterexample): one tick of the temperature worker from the
initial living-room state with the Gaussian noise draw 100 (the draw's
support is all of ℝ) stores `current_temp = 121.9874` in the room
state — strictly above the configured `global_max_temp = 50` — while the
emitted reading is clamped to 50. The clamp in
`generate_temperature_reading` is applied to the reading only, after
`update_room_temperature` has already stored the raw value, so the claim
that the stored `current_value` is always within the global bounds after
a tick is false. -/
theorem C1_counterexample :
    ¬ ((generate_temperature_reading defaultConfig.temperature
          livingRoomTempConfig ⟨0, 0, 100, 1⟩ "living_room" 15
          (initTempState livingRoomTempConfig 0)).2.current_temp
        ≤ defaultConfig.temperature.global_max_temp)
    ∧ (generate_temperature_reading defaultConfig.temperature
          livingRoomTempConfig ⟨0, 0, 100, 1⟩ "living_room" 15
          (initTempState livingRoomTempConfig 0)).1.temperature = 50 := by
  constructor
  · norm_num [generate_temperature_reading, update_room_temperature,
      initTempState, livingRoomTempConfig, defaultConfig]
  · norm_num [generate_temperature_reading, update_room_temperature,
      initTempState, livingRoomTempConfig, defaultConfig, pyRound, roundHalfEven]

/-- `generate_temperature_reading` emits the rounded clamp of the raw
tick value. -/
theorem temp_reading_eq (gcfg : TemperatureConfig) (cfg : RoomTempConfig)
    (env : TempEnv) (room_id : String) (o : ℚ) (st : TempRoomState) :
    (generate_temperature_reading gcfg cfg env room_id o st).1.temperature =
      pyRound (max gcfg.global_min_temp (min gcfg.global_max_temp
        (update_room_temperature cfg env o st).1)) 1 := rfl

/-- `generate_temperature_reading` stores exactly the state produced by
`update_room_temperature`. -/
theorem temp_reading_state_eq (gcfg : TemperatureConfig)
    (cfg : RoomTempConfig) (env : TempEnv) (room_id : String) (o : ℚ)
    (st : TempRoomState) :
    (generate_temperature_reading gcfg cfg env room_id o st).2 =
      (update_room_temperature cfg env o st).2 := rfl

/-- The stored temperature is the raw (unclamped) tick value. -/
theorem temp_stored_raw (cfg : RoomTempConfig) (env : TempEnv) (o : ℚ)
    (st : TempRoomState) :
    (update_room_temperature cfg env o st).2.current_temp =
      (update_room_temperature cfg env o st).1 := rfl

/-- `generate_humidity_reading` emits the rounded clamp of the value
returned by `update_room_humidity`. -/
theorem hum_reading_eq (cfg : RoomHumConfig) (env : HumEnv)
    (room_id : String) (o : ℚ) (st : HumRoomState) :
    (generate_humidity_reading cfg env room_id o st).1.humidity =
      pyRound (max 20 (min 95 (update_room_humidity cfg env o st).1)) 1 := rfl

/-- `generate_humidity_reading` stores exactly the state produced by
`update_room_humidity`. -/
theorem hum_reading_state_eq (cfg : RoomHumConfig) (env : HumEnv)
    (room_id : String) (o : ℚ) (st : HumRoomState) :
    (generate_humidity_reading cfg env room_id o st).2 =
      (update_room_humidity cfg env o st).2 := rfl

/-- The humidity worker returns the clamp of the raw value it stores. -/
theorem hum_returned_clamped (cfg : RoomHumConfig) (env : HumEnv) (o : ℚ)
    (st : HumRoomState) :
    (update_room_humidity cfg env o st).1 =
      max 20 (min 95 (update_room_humidity cfg env o st).2.current_humidity) := rfl

/-- C1 (amended): for every room configuration, ambient input and room
state, the **emitted reading's** value is within the domain's global
bounds (`[-30, 50]` for temperature, `[20, 95]` for humidity, under the
default configuration), and the reading value is exactly the clamped
(and rounded) image of the **stored** state value — the stored value
itself is the raw, unclamped tick result. -/
theorem C1_amended_clamp (cfg : RoomTempConfig) (env : TempEnv)
    (room_id : String) (outdoor_temp : ℚ) (st : TempRoomState)
    (hcfg : RoomHumConfig) (henv : HumEnv) (hroom : String)
    (outdoor_humidity : ℚ) (hst : HumRoomState) :
    (defaultConfig.temperature.global_min_temp ≤
        (generate_temperature_reading defaultConfig.temperature cfg env
          room_id outdoor_temp st).1.temperature
      ∧ (generate_temperature_reading defaultConfig.temperature cfg env
          room_id outdoor_temp st).1.temperature ≤
        defaultConfig.temperature.global_max_temp)
    ∧ (generate_temperature_reading defaultConfig.temperature cfg env
          room_id outdoor_temp st).1.temperature =
        pyRound (max defaultConfig.temperature.global_min_temp
          (min defaultConfig.temperature.global_max_temp
            (generate_temperature_reading defaultConfig.temperature cfg env
              room_id outdoor_temp st).2.current_temp)) 1
    ∧ ((20 : ℚ) ≤ (generate_humidity_reading hcfg henv hroom
          outdoor_humidity hst).1.humidity
      ∧ (generate_humidity_reading hcfg henv hroom
          outdoor_humidity hst).1.humidity ≤ 95)
    ∧ (generate_humidity_reading hcfg henv hroom
          outdoor_humidity hst).1.humidity =
        pyRound (max 20 (min 95 (generate_humidity_reading hcfg henv hroom
          outdoor_humidity hst).2.current_humidity)) 1 := by
  have gmin : defaultConfig.temperature.global_min_temp = -30 := rfl
  have gmax : defaultConfig.temperature.global_max_temp = 50 := rfl
  refine ⟨⟨?_, ?_⟩, ?_, ⟨?_, ?_⟩, ?_⟩
  · rw [temp_reading_eq, gmin, gmax]
    have h0 : ((-30 : ℤ) : ℚ) ≤ max (-30)
        (min 50 (update_room_temperature cfg env outdoor_temp st).1) := by
      push_cast
      exact le_max_left _ _
    have h := le_pyRound 1 h0
    exact_mod_cast h
  · rw [temp_reading_eq, gmin, gmax]
    have h0 : max (-30 : ℚ)
        (min 50 (update_room_temperature cfg env outdoor_temp st).1)
        ≤ ((50 : ℤ) : ℚ) := by
      push_cast
      exact max_le (by norm_num) (min_le_left _ _)
    have h := pyRound_le 1 h0
    exact_mod_cast h
  · rw [temp_reading_eq, temp_reading_state_eq, temp_stored_raw]
  · rw [hum_reading_eq]
    have h0 : ((20 : ℤ) : ℚ) ≤ max 20
        (min 95 (update_room_humidity hcfg henv outdoor_humidity hst).1) := by
      push_cast
      exact le_max_left _ _
    have h := le_pyRound 1 h0
    exact_mod_cast h
  · rw [hum_reading_eq]
    have h0 : max (20 : ℚ)
        (min 95 (update_room_humidity hcfg henv outdoor_humidity hst).1)
        ≤ ((95 : ℤ) : ℚ) := by
      push_cast
      exact max_le (by norm_num) (min_le_left _ _)
    have h := pyRound_le 1 h0
    exact_mod_cast h
  · rw [hum_reading_eq, hum_returned_clamped, clamp20_95_idem,
      hum_reading_state_eq]

/-- C3 (counterexample): two consecutive monitoring cycles with the
coordinator expecting the system to run and the temperature worker
reporting not-running broadcast the critical system alert **twice** —
once per cycle — refuting the claim that the alert is emitted exactly
once per down transition and never re-broadcast while the worker remains
down. `check_system_alerts` keeps no memory of already-reported workers
(level-triggered, not edge-triggered). -/
theorem C3_counterexample :
    ((run_monitoring true [("temperature", false)] ⟨0, 0⟩ 2).2.count
      (SysMsg.system_alert "temperature")) = 2 := by decide

/-- C3 (amended): while the coordinator expects the system to be running
and a worker reports not running, the monitoring loop re-broadcasts the
critical system alert on **every** cycle (once per cycle for as long as
the worker remains down), not once per down transition. -/
theorem C3_amended_level_triggered (w : String) (s : MonStats) (n : ℕ) :
    ((run_monitoring true [(w, false)] s n).2.count
      (SysMsg.system_alert w)) = n := by
  induction n generalizing s with
  | zero => simp [run_monitoring]
  | succ n ih =>
    simp only [run_monitoring, run_monitoring_cycle, check_system_alerts]
    simp only [List.filter, List.map, Bool.and_true, Bool.not_false]
    rw [List.count_append]
    split_ifs <;> simp [List.count_cons, List.count_nil, ih] <;> omega

set_option maxHeartbeats 1600000 in
/-- C4: for all temperature and humidity inputs (default configuration),
each comfort sub-score is the step function over the optimal /
acceptable / warning bands (100 / 80 / 60 / 40), the overall score is
exactly `0.6 × temperature_score + 0.4 × humidity_score`, the comfort
level is classified as excellent (≥ 90) / good (≥ 80) / acceptable
(≥ 60) / poor on the overall score, and in particular temperature 22 °C
with humidity 50 % yields overall score 100 and level `"excellent"`. -/
theorem C4_comfort_scoring (t h : ℚ) :
    (calculate_comfort_score defaultConfig t h).temperature_score =
      (if 20 ≤ t ∧ t ≤ 24 then (100 : ℚ) else if 18 ≤ t ∧ t ≤ 26 then 80
       else if 16 ≤ t ∧ t ≤ 28 then 60 else 40)
  ∧ (calculate_comfort_score defaultConfig t h).humidity_score =
      (if 40 ≤ h ∧ h ≤ 60 then (100 : ℚ) else if 35 ≤ h ∧ h ≤ 65 then 80
       else if 30 ≤ h ∧ h ≤ 70 then 60 else 40)
  ∧ (calculate_comfort_score defaultConfig t h).overall_score =
      (calculate_comfort_score defaultConfig t h).temperature_score * 0.6 +
      (calculate_comfort_score defaultConfig t h).humidity_score * 0.4
  ∧ (calculate_comfort_score defaultConfig t h).comfort_level =
      (if (calculate_comfort_score defaultConfig t h).overall_score ≥ 90
        then "excellent"
       else if (calculate_comfort_score defaultConfig t h).overall_score ≥ 80
        then "good"
       else if (calculate_comfort_score defaultConfig t h).overall_score ≥ 60
        then "acceptable"
       else "poor")
  ∧ (calculate_comfort_score defaultConfig 22 50).overall_score = 100
  ∧ (calculate_comfort_score defaultConfig 22 50).comfort_level = "excellent" := by
  refine ⟨?_, ?_, ?_, ?_, ?_, ?_⟩
  · simp only [calculate_comfort_score, defaultConfig]
  · simp only [calculate_comfort_score, defaultConfig]
  · simp only [calculate_comfort_score, defaultConfig]
    norm_num
    split_ifs <;> norm_num [pyRound, roundHalfEven]
  · simp only [calculate_comfort_score, defaultConfig]
    norm_num
    split_ifs <;> first
      | rfl
      | norm_num [pyRound, roundHalfEven] at *
  · norm_num [calculate_comfort_score, defaultConfig,
      get_comfort_recommendations, pyRound, roundHalfEven]
  · norm_num [calculate_comfort_score, defaultConfig,
      get_comfort_recommendations]

/-- C5: room-alert evaluation checks critical temperature bounds before
warning bounds and the `if/elif` chain produces at most one temperature
alert per evaluation; whenever the temperature exceeds the critical
maximum every temperature alert of that evaluation is critical (the
critical check short-circuits the warning check); in particular 36 °C
(above the default critical max 35) with humidity 50 % and power 0
produces exactly the critical temperature alert and nothing else. -/
theorem C5_critical_first (config : SensorSystemConfig) (t h p : ℚ)
    (hcrit : t > config.temperature.alert_critical_max) :
    (∀ t' h' p' : ℚ, ((check_room_alerts config t' h' p').filter
        (fun a => a.atype == "temperature")).length ≤ 1)
  ∧ (∀ a ∈ check_room_alerts config t h p,
      a.atype = "temperature" → a.severity = "critical")
  ∧ check_room_alerts defaultConfig 36 50 0 =
      [{ atype := "temperature", severity := "critical", value := 36
         recommendation := "Check cooling system immediately" }] := by
  refine ⟨?_, ?_, ?_⟩
  · intro t' h' p'
    simp only [check_room_alerts]
    split_ifs <;> simp
  · intro a ha hat
    simp only [check_room_alerts] at ha
    split_ifs at ha <;>
      first
        | exact absurd hcrit (by assumption)
        | aesop
  · norm_num [check_room_alerts, defaultConfig]

/-- C5 (witness): the theorem applied at `t = 36` under the default
configuration. -/
theorem C5_witness :
    ((check_room_alerts defaultConfig 36 50 0).filter
        (fun a => a.atype == "temperature")).length ≤ 1
  ∧ check_room_alerts defaultConfig 36 50 0 =
      [{ atype := "temperature", severity := "critical", value := 36
         recommendation := "Check cooling system immediately" }] :=
  ⟨(C5_critical_first defaultConfig 36 50 0
      (by norm_num [defaultConfig])).1 36 50 0,
   (C5_critical_first defaultConfig 36 50 0
      (by norm_num [defaultConfig])).2.2⟩

/-- The accumulated power of the energy device loop is the accumulator
plus the exact sum of the per-device powers. -/
theorem foldl_energyDeviceStep (env : EnergyEnv) (now : ℚ)
    (l : List DeviceEntry) :
    ∀ acc, (l.foldl (energyDeviceStep env now) acc).1 =
      acc.1 + (l.map (devicePower env)).sum := by
  induction l with
  | nil => intro acc; simp
  | cons e rest ih =>
    intro acc
    rw [List.foldl_cons, ih, List.map_cons, List.sum_cons, ← add_assoc]
    rfl

/-- The room power computed by the device loop is the exact sum of the
per-device powers of the tick. -/
theorem energyDeviceLoop_power (env : EnergyEnv) (now : ℚ)
    (entries : List DeviceEntry) :
    (energyDeviceLoop env now entries).1 =
      (entries.map (devicePower env)).sum := by
  have h := foldl_energyDeviceStep env now entries (0, [], [])
  simpa [energyDeviceLoop] using h

/-- C6: on every energy tick, the room's stored `current_power` total is
**exactly** the sum of the per-device power values computed for that
room in the same tick (no rounding), and the reported reading value is
that exact sum rounded to two decimals. -/
theorem C6_room_power_sum (env : EnergyEnv) (now : ℚ) (room_id : String)
    (entries : List DeviceEntry) (totals : RoomTotals) :
    (generate_energy_reading env now room_id entries totals).2.2.current_power =
      (entries.map (devicePower env)).sum
  ∧ (generate_energy_reading env now room_id entries totals).2.2.current_power =
      ((generate_energy_reading env now room_id entries totals).2.1.map
        (fun e => e.state.current_power)).sum
  ∧ (generate_energy_reading env now room_id entries totals).1.current_power =
      pyRound ((entries.map (devicePower env)).sum) 2 := by
  have h1 : (generate_energy_reading env now room_id entries totals).2.2.current_power
      = (energyDeviceLoop env now entries).1 := rfl
  have h2 : (generate_energy_reading env now room_id entries totals).1.current_power
      = pyRound (energyDeviceLoop env now entries).1 2 := rfl
  refine ⟨?_, ?_, ?_⟩
  · rw [h1, energyDeviceLoop_power]
  · have hdev : (generate_energy_reading env now room_id entries totals).2.1
        = (energyDeviceLoop env now entries).2.2 := rfl
    have aux : ∀ (l : List DeviceEntry) acc,
        ((l.foldl (energyDeviceStep env now) acc).2.2.map
          (fun d => d.state.current_power)).sum =
        (acc.2.2.map (fun d => d.state.current_power)).sum +
          (l.map (devicePower env)).sum := by
      intro l
      induction l with
      | nil => intro acc; simp
      | cons e rest ih =>
        intro acc
        rw [List.foldl_cons, List.map_cons, List.sum_cons]
        have stepE : (energyDeviceStep env now acc e).2.2 =
            acc.2.2 ++ [{ e with
              state := (apply_device_usage e.config env e.draw now e.state).2 }] := rfl
        have stateP : (apply_device_usage e.config env e.draw now e.state).2.current_power
            = devicePower env e := rfl
        rw [ih (energyDeviceStep env now acc e), stepE, List.map_append,
          List.sum_append]
        simp only [List.map_cons, List.map_nil, List.sum_cons, List.sum_nil,
          stateP]
        ring
    rw [h1, energyDeviceLoop_power, hdev]
    simp only [energyDeviceLoop]
    rw [aux entries (0, [], [])]
    simp
  · rw [h2, energyDeviceLoop_power]

/-- C7: a connected peer sending a command whose `type` is not one of
the six recognized types gets exactly one `error` reply — addressed to
that peer — and the dispatch sends nothing to any other peer and leaves
the manager state unchanged. -/
theorem C7_unknown_command (st : WSState) (client_id : String) (msg : InMsg)
    (hconn : client_id ∈ st.active_connections)
    (hunk : msg.mtype ∉ (["subscribe_room", "unsubscribe_room",
      "subscribe_sensor", "unsubscribe_sensor", "ping",
      "get_status"] : List String)) :
    (handle_message st client_id msg).1 =
      [(client_id, Msg.error ("Unknown message type: " ++ msg.mtype))]
  ∧ (handle_message st client_id msg).2 = st := by
  have h1 : msg.mtype ≠ "subscribe_room" := fun hh => hunk (by simp [hh])
  have h2 : msg.mtype ≠ "unsubscribe_room" := fun hh => hunk (by simp [hh])
  have h3 : msg.mtype ≠ "subscribe_sensor" := fun hh => hunk (by simp [hh])
  have h4 : msg.mtype ≠ "unsubscribe_sensor" := fun hh => hunk (by simp [hh])
  have h5 : msg.mtype ≠ "ping" := fun hh => hunk (by simp [hh])
  have h6 : msg.mtype ≠ "get_status" := fun hh => hunk (by simp [hh])
  constructor <;>
    simp [handle_message, h1, h2, h3, h4, h5, h6, send_personal_message, hconn]

/-- C7 (witness): a connected peer `"A"` sending type `"bogus"`. -/
theorem C7_unknown_command_witness :
    (handle_message ⟨["A"], [], [], []⟩ "A" ⟨"bogus", "", ""⟩).1 =
      [("A", Msg.error ("Unknown message type: " ++ "bogus"))]
  ∧ (handle_message ⟨["A"], [], [], []⟩ "A" ⟨"bogus", "", ""⟩).2 =
      ⟨["A"], [], [], []⟩ :=
  C7_unknown_command ⟨["A"], [], [], []⟩ "A" ⟨"bogus", "", ""⟩
    (by decide) (by decide)

/-- C10: reconnecting with an already-registered `client_id` overwrites
the connection and resets the client's metadata to empty subscription
lists, but the room-subscription index is left untouched — so the old
index entries survive and the per-peer record and the topic index
disagree after the reconnect. -/
theorem C10_reconnect_stale_index (st : WSState) (c r fresh : String)
    (now : ℚ) (ip : String) (hc : c ≠ "")
    (hsub : c ∈ (dictGet st.room_subscriptions r).getD [])
    (hact : c ∈ st.active_connections) :
    (connect st (some c) fresh now ip).1 = c
  ∧ (connect st (some c) fresh now ip).2.2.active_connections =
      st.active_connections
  ∧ (connect st (some c) fresh now ip).2.2.room_subscriptions =
      st.room_subscriptions
  ∧ c ∈ (dictGet (connect st (some c) fresh now ip).2.2.room_subscriptions
      r).getD []
  ∧ dictGet (connect st (some c) fresh now ip).2.2.connection_metadata c =
      some { connected_at := now, client_ip := ip, rooms := [], sensors := [] } := by
  refine ⟨?_, ?_, ?_, ?_, ?_⟩ <;>
    simp [connect, hc, hact, hsub, dictGet_dictSet_self]

/-- C10 (witness): client `"A"`, subscribed to room `"r1"`, reconnects
with the same id. -/
theorem C10_reconnect_stale_index_witness :
    (connect
        { active_connections := ["A"]
          connection_metadata := [("A", ⟨0, "ip", ["r1"], []⟩)]
          room_subscriptions := [("r1", ["A"])]
          sensor_subscriptions := [] } (some "A") "F" 1 "ip2").1 = "A"
  ∧ (connect
        { active_connections := ["A"]
          connection_metadata := [("A", ⟨0, "ip", ["r1"], []⟩)]
          room_subscriptions := [("r1", ["A"])]
          sensor_subscriptions := [] } (some "A") "F" 1 "ip2").2.2.active_connections
      = ["A"]
  ∧ (connect
        { active_connections := ["A"]
          connection_metadata := [("A", ⟨0, "ip", ["r1"], []⟩)]
          room_subscriptions := [("r1", ["A"])]
          sensor_subscriptions := [] } (some "A") "F" 1 "ip2").2.2.room_subscriptions
      = [("r1", ["A"])]
  ∧ "A" ∈ (dictGet (connect
        { active_connections := ["A"]
          connection_metadata := [("A", ⟨0, "ip", ["r1"], []⟩)]
          room_subscriptions := [("r1", ["A"])]
          sensor_subscriptions := [] } (some "A") "F" 1 "ip2").2.2.room_subscriptions
      "r1").getD []
  ∧ dictGet (connect
        { active_connections := ["A"]
          connection_metadata := [("A", ⟨0, "ip", ["r1"], []⟩)]
          room_subscriptions := [("r1", ["A"])]
          sensor_subscriptions := [] } (some "A") "F" 1 "ip2").2.2.connection_metadata
      "A" = some { connected_at := 1, client_ip := "ip2", rooms := [], sensors := [] } :=
  C10_reconnect_stale_index
    { active_connections := ["A"]
      connection_metadata := [("A", ⟨0, "ip", ["r1"], []⟩)]
      room_subscriptions := [("r1", ["A"])]
      sensor_subscriptions := [] } "A" "r1" "F" 1 "ip2"
    (by decide) (by decide) (by decide)

/-- C2 (counterexample): peer `"B"` is subscribed only to the
`"humidity"` sensor topic (and to no room), yet a broadcast of
`"temperature"` sensor data is delivered to `"B"` as well, because
`broadcast_sensor_data` follows the per-topic delivery with an
unconditional `broadcast_message` to every connected client. This
refutes the claim that a peer subscribed only to a different topic
receives nothing from the broadcast (it also shows subscriber `"A"`
receives the same message twice). -/
theorem C2_counterexample :
    ("B", Msg.sensor_data "temperature" "x") ∈
      (broadcast_sensor_data
        { active_connections := ["A", "B"]
          connection_metadata := []
          room_subscriptions := []
          sensor_subscriptions := [("temperature", ["A"]), ("humidity", ["B"])] }
        "temperature" "x").1
  ∧ ((broadcast_sensor_data
        { active_connections := ["A", "B"]
          connection_metadata := []
          room_subscriptions := []
          sensor_subscriptions := [("temperature", ["A"]), ("humidity", ["B"])] }
        "temperature" "x").1.filter
      (fun s => s.1 == "A")).length = 2 := by
  constructor
  · decide
  · decide

/-- C2 (amended): room broadcasts route exactly — when every subscriber
of the room is connected, `broadcast_to_room` delivers the message to
precisely the subscriber list (in order, once each) and leaves the
state unchanged, and a peer not subscribed to the room never receives a
room broadcast; sensor broadcasts, however, deliver to the sensor
topic's subscribers **and then to every connected peer**, so peers
subscribed only to other topics also receive `sensor_data` messages. -/
theorem C2_amended_routing (st : WSState) (room : String) (m : Msg)
    (subs : List String)
    (hsubs : dictGet st.room_subscriptions room = some subs)
    (hconn : ∀ c ∈ subs, c ∈ st.active_connections)
    (stype payload : String)
    (hsconn : ∀ ssubs, dictGet st.sensor_subscriptions stype = some ssubs →
      ∀ c ∈ ssubs, c ∈ st.active_connections) :
    (broadcast_to_room st room m).1 = subs.map (fun c => (c, m))
  ∧ (∀ c x, (c, x) ∈ (broadcast_to_room st room m).1 → c ∈ subs)
  ∧ (broadcast_to_room st room m).2 = st
  ∧ (∀ c ∈ st.active_connections,
      (c, Msg.sensor_data stype payload) ∈
        (broadcast_sensor_data st stype payload).1) := by
  have hfilter : subs.filter (fun c => c ∈ st.active_connections) = subs := by
    rw [List.filter_eq_self]
    intro a ha
    simpa using hconn a ha
  have hstale : subs.filter (fun c => c ∉ st.active_connections) = [] := by
    rw [List.filter_eq_nil_iff]
    intro a ha
    simpa using hconn a ha
  refine ⟨?_, ?_, ?_, ?_⟩
  · simp only [broadcast_to_room, hsubs]
    rw [hfilter]
  · intro c x hcx
    simp only [broadcast_to_room, hsubs] at hcx
    simp only [List.mem_map] at hcx
    obtain ⟨a, ha, heq⟩ := hcx
    obtain ⟨rfl, -⟩ := Prod.mk.injEq .. ▸ heq
    exact List.mem_of_mem_filter ha
  · simp only [broadcast_to_room, hsubs]
    rw [hstale]
    rfl
  · intro c hc
    simp only [broadcast_sensor_data]
    cases hd : dictGet st.sensor_subscriptions stype with
    | none =>
      simp only [hd, broadcast_message, List.mem_append, List.mem_map]
      right
      exact ⟨c, hc, rfl⟩
    | some ssubs =>
      have hstale2 : ssubs.filter (fun c => c ∉ st.active_connections) = [] := by
        rw [List.filter_eq_nil_iff]
        intro a ha
        simpa using hsconn ssubs hd a ha
      simp only [hd, hstale2, List.foldl_nil, broadcast_message,
        List.mem_append, List.mem_map]
      right
      exact ⟨c, hc, rfl⟩

/-- C2 (witness): a two-peer state where `"A"` is subscribed to room
`"r1"` and to the `"temperature"` sensor topic. -/
theorem C2_amended_routing_witness :
    (broadcast_to_room
        { active_connections := ["A", "B"]
          connection_metadata := []
          room_subscriptions := [("r1", ["A"])]
          sensor_subscriptions := [("temperature", ["A"])] }
        "r1" (Msg.update "p")).1 = [("A", Msg.update "p")]
  ∧ (∀ c x, (c, x) ∈ (broadcast_to_room
        { active_connections := ["A", "B"]
          connection_metadata := []
          room_subscriptions := [("r1", ["A"])]
          sensor_subscriptions := [("temperature", ["A"])] }
        "r1" (Msg.update "p")).1 → c ∈ ["A"])
  ∧ (broadcast_to_room
        { active_connections := ["A", "B"]
          connection_metadata := []
          room_subscriptions := [("r1", ["A"])]
          sensor_subscriptions := [("temperature", ["A"])] }
        "r1" (Msg.update "p")).2 =
      { active_connections := ["A", "B"]
        connection_metadata := []
        room_subscriptions := [("r1", ["A"])]
        sensor_subscriptions := [("temperature", ["A"])] }
  ∧ (∀ c ∈ (["A", "B"] : List String),
      (c, Msg.sensor_data "temperature" "x") ∈
        (broadcast_sensor_data
          { active_connections := ["A", "B"]
            connection_metadata := []
            room_subscriptions := [("r1", ["A"])]
            sensor_subscriptions := [("temperature", ["A"])] }
          "temperature" "x").1) :=
  C2_amended_routing
    { active_connections := ["A", "B"]
      connection_metadata := []
      room_subscriptions := [("r1", ["A"])]
      sensor_subscriptions := [("temperature", ["A"])] }
    "r1" (Msg.update "p") ["A"] (by decide)
    (by decide) "temperature" "x"
    (by intro ssubs hd; cases hd; decide)

/-- Subscribing a client that is already in the room's subscriber list
does not change the manager state (only the confirmation is re-sent). -/
theorem handle_room_subscription_mem (st : WSState) (cid r : String)
    (hr : r ≠ "") (h : cid ∈ (dictGet st.room_subscriptions r).getD []) :
    (handle_room_subscription st cid r).2 = st := by
  cases hd : dictGet st.room_subscriptions r with
  | none => simp [hd] at h
  | some subs =>
    have hm : cid ∈ subs := by simpa [hd] using h
    simp [handle_room_subscription, hr, hd, hm]

/-- Subscribing is additive: afterwards the client is in the room's
subscriber list (whatever the starting state). -/
theorem handle_room_subscription_adds (st : WSState) (cid r : String)
    (hr : r ≠ "") :
    cid ∈ (dictGet (handle_room_subscription st cid r).2.room_subscriptions
      r).getD [] := by
  cases hd : dictGet st.room_subscriptions r with
  | none =>
    cases hmd : dictGet st.connection_metadata cid with
    | none => simp [handle_room_subscription, hr, hd, hmd, dictGet_dictSet_self]
    | some meta => simp [handle_room_subscription, hr, hd, hmd, dictGet_dictSet_self]
  | some subs =>
    by_cases hm : cid ∈ subs
    · simp [handle_room_subscription, hr, hd, hm]
    · cases hmd : dictGet st.connection_metadata cid with
      | none => simp [handle_room_subscription, hr, hd, hm, hmd, dictGet_dictSet_self]
      | some meta => simp [handle_room_subscription, hr, hd, hm, hmd, dictGet_dictSet_self]

/-- C9: on the subscription indices, subscribing is additive and
idempotent — subscribing the same client to the same room twice leaves
the manager state exactly as after subscribing once, and creates no
duplicate entry in the room's subscriber list or the client's metadata
room list — and unsubscribing removes the subscription from the room
index when present and leaves the state untouched otherwise. -/
theorem C9_subscription_algebra (st : WSState) (cid r : String)
    (hr : r ≠ "")
    (hnd : ((dictGet st.room_subscriptions r).getD []).Nodup)
    (hmnd : ∀ meta, dictGet st.connection_metadata cid = some meta →
      meta.rooms.Nodup)
    (hcons : ∀ meta, dictGet st.connection_metadata cid = some meta →
      r ∈ meta.rooms → cid ∈ (dictGet st.room_subscriptions r).getD []) :
    cid ∈ (dictGet (handle_room_subscription st cid r).2.room_subscriptions
      r).getD []
  ∧ (handle_room_subscription (handle_room_subscription st cid r).2 cid r).2 =
      (handle_room_subscription st cid r).2
  ∧ ((dictGet (handle_room_subscription st cid r).2.room_subscriptions
      r).getD []).Nodup
  ∧ (∀ meta, dictGet (handle_room_subscription st cid r).2.connection_metadata
      cid = some meta → meta.rooms.Nodup)
  ∧ (cid ∈ (dictGet st.room_subscriptions r).getD [] →
      cid ∉ (dictGet (handle_room_unsubscription st cid r).2.room_subscriptions
        r).getD [])
  ∧ (cid ∉ (dictGet st.room_subscriptions r).getD [] →
      (handle_room_unsubscription st cid r).2 = st) := by
  refine ⟨handle_room_subscription_adds st cid r hr,
    handle_room_subscription_mem _ cid r hr
      (handle_room_subscription_adds st cid r hr), ?_, ?_, ?_, ?_⟩
  · -- the room's subscriber list stays duplicate-free
    cases hd : dictGet st.room_subscriptions r with
    | none =>
      cases hmd : dictGet st.connection_metadata cid with
      | none => simp [handle_room_subscription, hr, hd, hmd, dictGet_dictSet_self]
      | some meta => simp [handle_room_subscription, hr, hd, hmd, dictGet_dictSet_self]
    | some subs =>
      have hnd' : subs.Nodup := by simpa [hd] using hnd
      by_cases hm : cid ∈ subs
      · simp [handle_room_subscription, hr, hd, hm, hnd']
      · cases hmd : dictGet st.connection_metadata cid with
        | none =>
          simp [handle_room_subscription, hr, hd, hm, hmd,
            dictGet_dictSet_self, List.nodup_append, hnd']
        | some meta =>
          simp [handle_room_subscription, hr, hd, hm, hmd,
            dictGet_dictSet_self, List.nodup_append, hnd']
  · -- the client's metadata room list stays duplicate-free
    cases hd : dictGet st.room_subscriptions r with
    | none =>
      cases hmd : dictGet st.connection_metadata cid with
      | none =>
        intro meta hmeta
        simp [handle_room_subscription, hr, hd, hmd,
          dictGet_dictSet_self] at hmeta
      | some meta =>
        intro meta' hmeta'
        have hnr : r ∉ meta.rooms := fun hin => by
          have := hcons meta hmd hin
          simp [hd] at this
        simp [handle_room_subscription, hr, hd, hmd,
          dictGet_dictSet_self] at hmeta'
        subst hmeta'
        simp [List.nodup_append, hmnd meta hmd, hnr]
    | some subs =>
      by_cases hm : cid ∈ subs
      · intro meta hmeta
        simp [handle_room_subscription, hr, hd, hm] at hmeta
        exact hmnd meta hmeta
      · cases hmd : dictGet st.connection_metadata cid with
        | none =>
          intro meta hmeta
          simp [handle_room_subscription, hr, hd, hm, hmd,
            dictGet_dictSet_self] at hmeta
        | some meta =>
          intro meta' hmeta'
          have hnr : r ∉ meta.rooms := fun hin => hm (by
            have := hcons meta hmd hin
            simpa [hd] using this)
          simp [handle_room_subscription, hr, hd, hm, hmd,
            dictGet_dictSet_self] at hmeta'
          subst hmeta'
          simp [List.nodup_append, hmnd meta hmd, hnr]
  · -- unsubscribing removes the client from the room index
    intro hin
    cases hd : dictGet st.room_subscriptions r with
    | none => simp [hd] at hin
    | some subs =>
      have hm : cid ∈ subs := by simpa [hd] using hin
      have hnd' : subs.Nodup := by simpa [hd] using hnd
      cases hmd : dictGet st.connection_metadata cid with
      | none =>
        simp [handle_room_unsubscription, hr, hd, hm, hmd,
          dictGet_dictSet_self, List.Nodup.mem_erase_iff hnd']
      | some meta =>
        by_cases hrm : r ∈ meta.rooms
        · simp [handle_room_unsubscription, hr, hd, hm, hmd, hrm,
            dictGet_dictSet_self, List.Nodup.mem_erase_iff hnd']
        · simp [handle_room_unsubscription, hr, hd, hm, hmd, hrm,
            dictGet_dictSet_self, List.Nodup.mem_erase_iff hnd']
  · -- unsubscribing a client that is not subscribed leaves the state
    intro hout
    cases hd : dictGet st.room_subscriptions r with
    | none => simp [handle_room_unsubscription, hr, hd]
    | some subs =>
      have hm : cid ∉ subs := fun hmem => hout (by simpa [hd] using hmem)
      simp [handle_room_unsubscription, hr, hd, hm]

/-- C9 (witness): client `"A"`, consistently subscribed to room
`"r1"`: subscribing again is a no-op, and unsubscribing removes it. -/
theorem C9_subscription_algebra_witness :
    "A" ∈ (dictGet (handle_room_subscription
        (⟨["A"], [("A", ⟨0, "ip", ["r1"], []⟩)], [("r1", ["A"])], []⟩ : WSState)
        "A" "r1").2.room_subscriptions "r1").getD []
  ∧ (handle_room_subscription (handle_room_subscription
        (⟨["A"], [("A", ⟨0, "ip", ["r1"], []⟩)], [("r1", ["A"])], []⟩ : WSState)
        "A" "r1").2 "A" "r1").2 =
      (handle_room_subscription
        (⟨["A"], [("A", ⟨0, "ip", ["r1"], []⟩)], [("r1", ["A"])], []⟩ : WSState)
        "A" "r1").2
  ∧ "A" ∉ (dictGet (handle_room_unsubscription
        (⟨["A"], [("A", ⟨0, "ip", ["r1"], []⟩)], [("r1", ["A"])], []⟩ : WSState)
        "A" "r1").2.room_subscriptions "r1").getD [] := by
  have T := C9_subscription_algebra
    (⟨["A"], [("A", ⟨0, "ip", ["r1"], []⟩)], [("r1", ["A"])], []⟩ : WSState)
    "A" "r1" (by decide) (by decide)
    (by
      intro meta h
      simp [dictGet] at h
      subst h
      decide)
    (by
      intro meta h
      simp [dictGet] at h
      subst h
      intro hin
      decide)
  exact ⟨T.1, T.2.1, T.2.2.2.2.1 (by decide)⟩

/-- C8: the on-demand room summary advances the simulation — it stores
exactly the states produced by the same per-tick update functions the
worker loops use (`update_room_temperature` / `update_room_humidity`),
stamping them with the query time; hence whenever the query time differs
from the rooms' previous `last_update` the stored temperature and
humidity states change, and whenever the tick result differs from the
stored current value the stored current value changes too. -/
theorem C8_summary_mutates (config : SensorSystemConfig)
    (tcfg : RoomTempConfig) (hcfg : RoomHumConfig)
    (tenv : TempEnv) (henv : HumEnv) (eenv : EnergyEnv) (enow : ℚ)
    (room_id : String) (ot oh : ℚ) (st : RoomSimState)
    (ht : tenv.now ≠ st.tempSt.last_update)
    (hh : henv.now ≠ st.humSt.last_update) :
    ((get_room_summary config tcfg hcfg tenv henv eenv enow room_id ot oh
        st).2.tempSt = (update_room_temperature tcfg tenv ot st.tempSt).2)
  ∧ ((get_room_summary config tcfg hcfg tenv henv eenv enow room_id ot oh
        st).2.humSt = (update_room_humidity hcfg henv oh st.humSt).2)
  ∧ (get_room_summary config tcfg hcfg tenv henv eenv enow room_id ot oh
        st).2.tempSt.last_update = tenv.now
  ∧ (get_room_summary config tcfg hcfg tenv henv eenv enow room_id ot oh
        st).2.humSt.last_update = henv.now
  ∧ (get_room_summary config tcfg hcfg tenv henv eenv enow room_id ot oh
        st).2.tempSt ≠ st.tempSt
  ∧ (get_room_summary config tcfg hcfg tenv henv eenv enow room_id ot oh
        st).2.humSt ≠ st.humSt
  ∧ ((update_room_temperature tcfg tenv ot st.tempSt).1 ≠
        st.tempSt.current_temp →
      (get_room_summary config tcfg hcfg tenv henv eenv enow room_id ot oh
        st).2.tempSt.current_temp ≠ st.tempSt.current_temp) := by
  refine ⟨rfl, rfl, rfl, rfl, ?_, ?_, ?_⟩
  · intro heq
    exact ht (congrArg TempRoomState.last_update heq)
  · intro heq
    exact hh (congrArg HumRoomState.last_update heq)
  · intro hneq heq
    exact hneq heq

/-- C8 (witness): querying the living-room summary one time unit after
initialization, with noise draw 1, changes the stored temperature and
humidity states and the stored current temperature. -/
theorem C8_summary_mutates_witness :
    (get_room_summary defaultConfig livingRoomTempConfig livingRoomHumConfig
        ⟨0, 0, 1, 1⟩ ⟨0, 0, 0, false, 1, 1⟩
        ⟨12, 0, 1, fun _ => 0, fun _ => 0, 3⟩ 1 "living_room" 15 70
        ⟨initTempState livingRoomTempConfig 0,
          initHumState livingRoomHumConfig 0, [], ⟨0, 0, 0, 0⟩⟩).2.tempSt ≠
      initTempState livingRoomTempConfig 0
  ∧ (get_room_summary defaultConfig livingRoomTempConfig livingRoomHumConfig
        ⟨0, 0, 1, 1⟩ ⟨0, 0, 0, false, 1, 1⟩
        ⟨12, 0, 1, fun _ => 0, fun _ => 0, 3⟩ 1 "living_room" 15 70
        ⟨initTempState livingRoomTempConfig 0,
          initHumState livingRoomHumConfig 0, [], ⟨0, 0, 0, 0⟩⟩).2.humSt ≠
      initHumState livingRoomHumConfig 0
  ∧ (get_room_summary defaultConfig livingRoomTempConfig livingRoomHumConfig
        ⟨0, 0, 1, 1⟩ ⟨0, 0, 0, false, 1, 1⟩
        ⟨12, 0, 1, fun _ => 0, fun _ => 0, 3⟩ 1 "living_room" 15 70
        ⟨initTempState livingRoomTempConfig 0,
          initHumState livingRoomHumConfig 0, [], ⟨0, 0, 0,
            0⟩⟩).2.tempSt.current_temp ≠
      (initTempState livingRoomTempConfig 0).current_temp := by
  have T := C8_summary_mutates defaultConfig livingRoomTempConfig
    livingRoomHumConfig ⟨0, 0, 1, 1⟩ ⟨0, 0, 0, false, 1, 1⟩
    ⟨12, 0, 1, fun _ => 0, fun _ => 0, 3⟩ 1 "living_room" 15 70
    ⟨initTempState livingRoomTempConfig 0,
      initHumState livingRoomHumConfig 0, [], ⟨0, 0, 0, 0⟩⟩
    (by norm_num [initTempState, livingRoomTempConfig])
    (by norm_num [initHumState, livingRoomHumConfig])
  exact ⟨T.2.2.2.2.1, T.2.2.2.2.2.1, T.2.2.2.2.2.2
    (by norm_num [update_room_temperature, initTempState, livingRoomTempConfig])⟩

end SmartHome
